import Mathlib

/-!
Shallow embedding of `CodeAnalysisTool`
(`src/ai_code_generator/tools/code_analysis_tool.py`) and proofs about it.

Python strings are modelled as Lean `String`; Python lists as `List String`;
the `Optional[str]` snippet as `Option String`.  Substring containment
(Python's `in` operator) is `pyIn`; `str.lower()` is `pyLower`;
`str.split('\n')` is `pySplitNewline`; `str.title()` is `pyTitle`.  The few
regular expressions in the source are
modelled by dedicated scanners over `List Char`, each faithful to the
particular pattern's semantics on the particular flags the source uses.
-/

namespace CodeAnalysisTool

/-- Python's substring containment `pat in s` over character lists:
true iff `pat` occurs contiguously in `s` (the empty pattern occurs). -/
def containsTok (pat : List Char) : List Char → Bool
  | [] => pat.isPrefixOf []
  | c :: cs => pat.isPrefixOf (c :: cs) || containsTok pat cs

/-- Python's `pat in s` for strings. -/
def pyIn (pat s : String) : Bool := containsTok pat.data s.data

/-- Python's `str.lower()` (ASCII model), character-wise over the data. -/
def pyLower (s : String) : String := ⟨s.data.map Char.toLower⟩

/-- Python's `str.split(sep)` for a one-character separator: the pieces
between occurrences of `sep`, empty pieces kept (`"".split(c) == ['']`). -/
def splitOnChar (sep : Char) : List Char → List (List Char)
  | [] => [[]]
  | c :: cs =>
    if c = sep then [] :: splitOnChar sep cs
    else
      match splitOnChar sep cs with
      | [] => [[c]]
      | l :: ls => (c :: l) :: ls

/-- Python's `code.split('\n')`. -/
def pySplitNewline (s : String) : List String :=
  (splitOnChar '\n' s.data).map (fun l => ⟨l⟩)

/-- Python's `str.title()` (ASCII model): the first character of every run of
letters is upper-cased, the rest lower-cased. -/
def titleAux : Bool → List Char → List Char
  | _, [] => []
  | prevCased, c :: cs =>
    let c' := if c.isAlpha then (if prevCased then c.toLower else c.toUpper) else c
    c' :: titleAux c.isAlpha cs

/-- Python's `str.title()` on strings. -/
def pyTitle (s : String) : String := ⟨titleAux false s.data⟩

/-- The three generic architecture suggestions (lines 182-184). -/
def generalArch : List String :=
  [ "Follow separation of concerns principle",
    "Implement proper error handling and logging",
    "Use dependency injection for better testability" ]

/-- The API-specific architecture suggestions (lines 186-192). -/
def apiArch : List String :=
  [ "Implement layered architecture (Controller, Service, Repository)",
    "Use DTO/VO patterns for data transfer",
    "Implement proper validation at API boundaries",
    "Consider implementing CQRS pattern for complex operations" ]

/-- The web-specific architecture suggestions (lines 194-200). -/
def webArch : List String :=
  [ "Use MVC or MVP pattern",
    "Implement proper state management",
    "Use component-based architecture",
    "Implement proper routing structure" ]

/-- The database-specific architecture suggestions (lines 202-207). -/
def dbArch : List String :=
  [ "Use repository pattern for data access",
    "Implement proper database connection pooling",
    "Consider using ORM for database operations" ]

/-- The scale-specific architecture suggestions (lines 209-215). -/
def scaleArch : List String :=
  [ "Consider microservices architecture",
    "Implement proper caching strategy",
    "Use event-driven architecture where appropriate",
    "Consider implementing Circuit Breaker pattern" ]

/-- `CodeAnalysisTool._get_architecture_suggestions` (lines 175-217).
The API/web additions test `project_type`; the database and scale additions
test `requirements`. -/
def _get_architecture_suggestions (project_type requirements : String) : List String :=
  let project_lower := pyLower project_type
  let req_lower := pyLower requirements
  generalArch
    ++ (if pyIn "api" project_lower then apiArch
        else if pyIn "web" project_lower then webArch
        else [])
    ++ (if pyIn "database" req_lower then dbArch else [])
    ++ (if pyIn "scale" req_lower || pyIn "large" req_lower then scaleArch else [])

/-- The four generic security considerations (lines 224-230). -/
def generalSecurity : List String :=
  [ "Never hardcode sensitive information (passwords, API keys)",
    "Use environment variables for configuration",
    "Implement proper input validation and sanitization",
    "Use secure communication protocols (HTTPS/TLS)" ]

/-- `CodeAnalysisTool._get_security_considerations` (lines 219-249).
The `language` argument is accepted but unused by the source. -/
def _get_security_considerations (_language project_type : String) : List String :=
  let project_lower := pyLower project_type
  generalSecurity
    ++ (if pyIn "web" project_lower || pyIn "api" project_lower then
          [ "Implement proper authentication and authorization",
            "Protect against common vulnerabilities (XSS, CSRF, SQL injection)",
            "Use secure session management",
            "Implement rate limiting to prevent abuse",
            "Validate and sanitize all user inputs",
            "Use CORS properly for cross-origin requests" ]
        else [])
    ++ (if pyIn "database" project_lower then
          [ "Use parameterized queries to prevent SQL injection",
            "Implement proper database access controls",
            "Encrypt sensitive data at rest" ]
        else [])

/-- `CodeAnalysisTool._get_best_practices` (lines 74-129). -/
def _get_best_practices (language project_type : String) : List String :=
  let language_lower := pyLower language
  let project_lower := pyLower project_type
  (if language_lower = "python" then
      [ "Follow PEP 8 style guidelines",
        "Use virtual environments for dependency management",
        "Write docstrings for functions and classes",
        "Use type hints for better code clarity",
        "Implement proper error handling with specific exceptions",
        "Use list comprehensions and generator expressions when appropriate" ]
    else if language_lower = "javascript" ∨ language_lower = "js" then
      [ "Use strict mode ('use strict')",
        "Implement proper error handling with try/catch",
        "Use modern ES6+ features appropriately",
        "Implement proper async/await patterns",
        "Use meaningful variable and function names",
        "Avoid callback hell with promises or async/await" ]
    else if language_lower = "java" then
      [ "Follow Java naming conventions",
        "Use interfaces for abstraction",
        "Implement proper exception handling",
        "Use generics for type safety",
        "Follow SOLID principles",
        "Use proper access modifiers" ]
    else [])
  ++ (if pyIn "web" project_lower then
        [ "Implement proper input validation and sanitization",
          "Use HTTPS for secure communication",
          "Implement proper session management",
          "Follow RESTful API design principles" ]
      else if pyIn "api" project_lower then
        [ "Implement proper API versioning",
          "Use appropriate HTTP status codes",
          "Implement rate limiting",
          "Provide comprehensive API documentation",
          "Use proper authentication and authorization" ]
      else [])

/-- The `{"frameworks": [...], "libraries": [...], "tools": [...]}` dictionary
returned by `_get_recommended_libraries`. -/
structure LibraryRecommendations where
  frameworks : List String
  libraries : List String
  tools : List String
deriving DecidableEq, Repr

/-- `CodeAnalysisTool._get_recommended_libraries` (lines 131-173). -/
def _get_recommended_libraries (language project_type requirements : String) :
    LibraryRecommendations :=
  let language_lower := pyLower language
  let project_lower := pyLower project_type
  let req_lower := pyLower requirements
  if language_lower = "python" then
    { frameworks :=
        if pyIn "web" project_lower || pyIn "api" project_lower then
          ["FastAPI", "Flask", "Django"]
        else []
      libraries :=
        (if pyIn "web" project_lower || pyIn "api" project_lower then
          ["requests", "pydantic", "sqlalchemy"]
         else [])
        ++ (if pyIn "data" req_lower || pyIn "analysis" req_lower then
              ["pandas", "numpy", "matplotlib", "seaborn"]
            else [])
        ++ (if pyIn "test" req_lower then ["pytest", "unittest", "mock"] else [])
      tools := ["black (formatting)", "flake8 (linting)", "mypy (type checking)"] }
  else if language_lower = "javascript" ∨ language_lower = "js" then
    { frameworks :=
        (if pyIn "web" project_lower then ["React", "Vue.js", "Angular"] else [])
        ++ (if pyIn "api" project_lower || pyIn "backend" project_lower then
              ["Express.js", "Fastify", "Koa.js"]
            else [])
      libraries :=
        (if pyIn "web" project_lower then ["axios", "lodash", "moment.js"] else [])
        ++ (if pyIn "test" req_lower then ["Jest", "Mocha", "Cypress"] else [])
      tools := ["ESLint (linting)", "Prettier (formatting)", "Webpack (bundling)"] }
  else if language_lower = "java" then
    { frameworks :=
        if pyIn "web" project_lower || pyIn "api" project_lower then
          ["Spring Boot", "Spring MVC", "Quarkus"]
        else []
      libraries := if pyIn "test" req_lower then ["JUnit", "Mockito", "TestNG"] else []
      tools := ["Maven/Gradle (build)", "SonarQube (code quality)", "SpotBugs (static analysis)"] }
  else { frameworks := [], libraries := [], tools := [] }

/-- Python's regex `\s` character class, restricted to ASCII. -/
def isRegexSpace (c : Char) : Bool :=
  c = ' ' || c = '\t' || c = '\n' || c = '\r' || c = '\x0b' || c = '\x0c'

/-- Python's regex `\w` character class, restricted to ASCII. -/
def isWordChar (c : Char) : Bool := c.isAlphanum || c = '_'

/-- Drop trailing `\s` characters. -/
def rstripSpace (l : List Char) : List Char := (l.reverse.dropWhile isRegexSpace).reverse

/-- `p` holds at some start position of the list (every suffix, as `re.search`
tries every start position). -/
def anyPosition (p : List Char → Bool) : List Char → Bool
  | [] => p []
  | c :: cs => p (c :: cs) || anyPosition p cs

/-- `re.search(r'except:\s*$', code, re.MULTILINE)` (line 41): some line of
`code` contains an occurrence of `except:` followed only by whitespace up to
the end of the line, i.e. some line right-stripped ends with `except:`. -/
def bareExceptMatch (code : String) : Bool :=
  (pySplitNewline code).any (fun line => "except:".data.isSuffixOf (rstripSpace line.data))

/-- A match of `def \w+\([^)]*\):` starting at the head of the list: the
literal `def `, one or more word characters, `(`, any characters other than
`)`, then `):`. -/
def defMatchAt : List Char → Bool
  | 'd' :: 'e' :: 'f' :: ' ' :: rest =>
    !(rest.takeWhile isWordChar).isEmpty &&
      (match rest.dropWhile isWordChar with
       | '(' :: rest3 =>
         (match rest3.dropWhile (fun c => c ≠ ')') with
          | ')' :: ':' :: _ => true
          | _ => false)
       | _ => false)
  | _ => false

/-- `re.search(r'def \w+\([^)]*\):', code)` (line 45). -/
def hasDefRegex (code : String) : Bool := anyPosition defMatchAt code.data

/-- A match of `public class \w+` starting at the head of the list. -/
def publicClassAt (cs : List Char) : Bool :=
  let pat := "public class ".data
  pat.isPrefixOf cs &&
    (match cs.drop pat.length with
     | c :: _ => isWordChar c
     | [] => false)

/-- `re.search(r'public class \w+', code)` (line 57). -/
def hasPublicClass (code : String) : Bool := anyPosition publicClassAt code.data

/-- `re.search(r'password|secret|key', code, re.IGNORECASE)` (line 63): the
lower-cased snippet contains one of the three lower-cased literals. -/
def hasCredentialPattern (code : String) : Bool :=
  let lower := pyLower code
  pyIn "password" lower || pyIn "secret" lower || pyIn "key" lower

/-- Backtracking step for the greedy `.*` of `if\s*\(.*\)\s*{`: among the
first `i` positions of `rest3`, find the rightmost `)` that is followed
(after whitespace) by `{`; return the remainder after that `{`. -/
def tryCloseFrom (rest3 : List Char) : Nat → Option (List Char)
  | 0 => none
  | i + 1 =>
    match rest3.drop i with
    | ')' :: after =>
      (match after.dropWhile isRegexSpace with
       | '{' :: rem => some rem
       | _ => tryCloseFrom rest3 i)
    | _ => tryCloseFrom rest3 i

/-- A match of `if\s*\(.*\)\s*{` starting at the head of the list, returning
the remainder after the match.  `.*` cannot cross a newline, so the `)` must
lie within the current line; `\s*` may cross newlines. -/
def matchIfCond : List Char → Option (List Char)
  | 'i' :: 'f' :: rest =>
    (match rest.dropWhile isRegexSpace with
     | '(' :: rest3 => tryCloseFrom rest3 (rest3.takeWhile (fun c => c ≠ '\n')).length
     | _ => none)
  | _ => none

/-- Fuel-driven scan for non-overlapping matches of `if\s*\(.*\)\s*{`, as
`re.findall`: search left to right, resume after each match.  Every match
consumes at least five characters, so fuel equal to the list length is
never exhausted before the list is. -/
def findallIfCond : Nat → List Char → Nat
  | 0, _ => 0
  | _, [] => 0
  | fuel + 1, c :: cs =>
    match matchIfCond (c :: cs) with
    | some rest => 1 + findallIfCond fuel rest
    | none => findallIfCond fuel cs

/-- `len(re.findall(r'if\s*\(.*\)\s*{', code))` (line 66). -/
def ifCondCount (code : String) : Nat := findallIfCond code.data.length code.data

/-- The `{"issues": [...], "improvements": [...]}` result of
`_analyze_code_snippet`. -/
structure SnippetAnalysis where
  issues : List String
  improvements : List String
deriving DecidableEq, Repr

/-- `CodeAnalysisTool._analyze_code_snippet` (lines 26-72).  The two lists
collect their conditional entries in the program's append order. -/
def _analyze_code_snippet (code language : String) : SnippetAnalysis :=
  let language_lower := pyLower language
  let issues :=
    (if (pySplitNewline code).length > 100 then
       ["Code is quite long - consider breaking into smaller functions/methods"]
     else [])
    ++ (if language_lower = "python" then
          (if pyIn "import *" code then
             ["Avoid wildcard imports - use specific imports instead"]
           else [])
          ++ (if bareExceptMatch code then
                ["Use specific exception handling instead of bare except clauses"]
              else [])
          ++ (if pyIn "global " code then
                ["Consider avoiding global variables - use function parameters or class attributes"]
              else [])
        else [])
    ++ (if hasCredentialPattern code then
          ["Potential hardcoded credentials detected - use environment variables or config files"]
        else [])
  let improvements :=
    (if language_lower = "python" then
       (if !hasDefRegex code && (pySplitNewline code).length > 10 then
          ["Consider organizing code into functions for better readability"]
        else [])
     else if language_lower = "javascript" ∨ language_lower = "js" then
       (if pyIn "var " code then
          ["Consider using 'let' or 'const' instead of 'var' for better scoping"]
        else [])
       ++ (if pyIn "==" code then
             ["Consider using '===' for strict equality comparison"]
           else [])
       ++ (if pyIn "function(" code && !pyIn "arrow" code then
             ["Consider using arrow functions for cleaner syntax where appropriate"]
           else [])
     else if language_lower = "java" then
       (if !hasPublicClass code then
          ["Ensure proper class structure with access modifiers"]
        else [])
       ++ (if pyIn "System.out.println" code && !pyIn "main" code then
             ["Consider using a logging framework instead of System.out.println"]
           else [])
     else [])
    ++ (if ifCondCount code > 5 then
          ["Consider refactoring complex conditional logic into separate methods"]
        else [])
  { issues := issues, improvements := improvements }

/-- The FastAPI boilerplate appended for Python + API (lines 260-288). -/
def fastApiTemplate : String :=
  "# FastAPI Example Structure\n"
  ++ "from fastapi import FastAPI, HTTPException\n"
  ++ "from pydantic import BaseModel\n"
  ++ "from typing import List, Optional\n"
  ++ "\n"
  ++ "app = FastAPI(title=\"Your API\", version=\"1.0.0\")\n"
  ++ "\n"
  ++ "class ItemModel(BaseModel):\n"
  ++ "    name: str\n"
  ++ "    description: Optional[str] = None\n"
  ++ "\n"
  ++ "@app.get(\"/\")\n"
  ++ "async def root():\n"
  ++ "    return \x7b\"message\": \"Hello World\"\x7d\n"
  ++ "\n"
  ++ "@app.get(\"/items/\x7bitem_id\x7d\")\n"
  ++ "async def read_item(item_id: int):\n"
  ++ "    # Implement your logic here\n"
  ++ "    return \x7b\"item_id\": item_id\x7d\n"
  ++ "\n"
  ++ "@app.post(\"/items/\")\n"
  ++ "async def create_item(item: ItemModel):\n"
  ++ "    # Implement creation logic\n"
  ++ "    return item\n"
  ++ "\n"
  ++ "if __name__ == \"__main__\":\n"
  ++ "    import uvicorn\n"
  ++ "    uvicorn.run(app, host=\"0.0.0.0\", port=8000)\n"

/-- The script boilerplate appended for Python + script (lines 290-318). -/
def pythonScriptTemplate : String :=
  "# Python Script Template\n"
  ++ "import argparse\n"
  ++ "import logging\n"
  ++ "import sys\n"
  ++ "from typing import Optional\n"
  ++ "\n"
  ++ "# Configure logging\n"
  ++ "logging.basicConfig(level=logging.INFO, format='%(asctime)s - %(levelname)s - %(message)s')\n"
  ++ "logger = logging.getLogger(__name__)\n"
  ++ "\n"
  ++ "def main(args: argparse.Namespace) -> None:\n"
  ++ "    \"\"\"Main function to implement your logic.\"\"\"\n"
  ++ "    try:\n"
  ++ "        # Implement your main logic here\n"
  ++ "        logger.info(\"Script started\")\n"
  ++ "        # Your code here\n"
  ++ "        logger.info(\"Script completed successfully\")\n"
  ++ "    except Exception as e:\n"
  ++ "        logger.error(f\"Script failed: \x7be\x7d\")\n"
  ++ "        sys.exit(1)\n"
  ++ "\n"
  ++ "if __name__ == \"__main__\":\n"
  ++ "    parser = argparse.ArgumentParser(description=\"Your script description\")\n"
  ++ "    parser.add_argument(\"--input\", help=\"Input parameter\", required=True)\n"
  ++ "    parser.add_argument(\"--output\", help=\"Output parameter\", default=\"output.txt\")\n"
  ++ "    \n"
  ++ "    args = parser.parse_args()\n"
  ++ "    main(args)\n"

/-- The React boilerplate appended for JavaScript + web (lines 322-359). -/
def reactTemplate : String :=
  "// React Component Template\n"
  ++ "import React, \x7b useState, useEffect \x7d from 'react';\n"
  ++ "\n"
  ++ "const YourComponent = () => \x7b\n"
  ++ "  const [data, setData] = useState([]);\n"
  ++ "  const [loading, setLoading] = useState(true);\n"
  ++ "\n"
  ++ "  useEffect(() => \x7b\n"
  ++ "    // Fetch data on component mount\n"
  ++ "    const fetchData = async () => \x7b\n"
  ++ "      try \x7b\n"
  ++ "        const response = await fetch('/api/data');\n"
  ++ "        const result = await response.json();\n"
  ++ "        setData(result);\n"
  ++ "      \x7d catch (error) \x7b\n"
  ++ "        console.error('Error fetching data:', error);\n"
  ++ "      \x7d finally \x7b\n"
  ++ "        setLoading(false);\n"
  ++ "      \x7d\n"
  ++ "    \x7d;\n"
  ++ "\n"
  ++ "    fetchData();\n"
  ++ "  \x7d, []);\n"
  ++ "\n"
  ++ "  if (loading) \x7b\n"
  ++ "    return <div>Loading...</div>;\n"
  ++ "  \x7d\n"
  ++ "\n"
  ++ "  return (\n"
  ++ "    <div>\n"
  ++ "      <h1>Your Component</h1>\n"
  ++ "      \x7b/* Render your component here */\x7d\n"
  ++ "    </div>\n"
  ++ "  );\n"
  ++ "\x7d;\n"
  ++ "\n"
  ++ "export default YourComponent;\n"

/-- The Express boilerplate appended for JavaScript + API (lines 361-402). -/
def expressTemplate : String :=
  "// Express.js API Template\n"
  ++ "const express = require('express');\n"
  ++ "const cors = require('cors');\n"
  ++ "const helmet = require('helmet');\n"
  ++ "\n"
  ++ "const app = express();\n"
  ++ "const PORT = process.env.PORT || 3000;\n"
  ++ "\n"
  ++ "// Middleware\n"
  ++ "app.use(helmet());\n"
  ++ "app.use(cors());\n"
  ++ "app.use(express.json());\n"
  ++ "\n"
  ++ "// Routes\n"
  ++ "app.get('/', (req, res) => \x7b\n"
  ++ "  res.json(\x7b message: 'Hello World!' \x7d);\n"
  ++ "\x7d);\n"
  ++ "\n"
  ++ "app.get('/api/items/:id', (req, res) => \x7b\n"
  ++ "  try \x7b\n"
  ++ "    const \x7b id \x7d = req.params;\n"
  ++ "    // Implement your logic here\n"
  ++ "    res.json(\x7b id, message: 'Item retrieved' \x7d);\n"
  ++ "  \x7d catch (error) \x7b\n"
  ++ "    res.status(500).json(\x7b error: error.message \x7d);\n"
  ++ "  \x7d\n"
  ++ "\x7d);\n"
  ++ "\n"
  ++ "app.post('/api/items', (req, res) => \x7b\n"
  ++ "  try \x7b\n"
  ++ "    const data = req.body;\n"
  ++ "    // Implement creation logic\n"
  ++ "    res.status(201).json(\x7b message: 'Item created', data \x7d);\n"
  ++ "  \x7d catch (error) \x7b\n"
  ++ "    res.status(400).json(\x7b error: error.message \x7d);\n"
  ++ "  \x7d\n"
  ++ "\x7d);\n"
  ++ "\n"
  ++ "app.listen(PORT, () => \x7b\n"
  ++ "  console.log(`Server running on port $\x7bPORT\x7d`);\n"
  ++ "\x7d);\n"

/-- `CodeAnalysisTool._generate_code_template` (lines 251-404).  The
`requirements` argument is accepted but unused by the source. -/
def _generate_code_template (language project_type _requirements : String) : String :=
  let language_lower := pyLower language
  let project_lower := pyLower project_type
  ("# " ++ pyTitle project_type ++ " Template for " ++ pyTitle language ++ "\n\n")
  ++ (if language_lower = "python" then
        (if pyIn "api" project_lower then fastApiTemplate
         else if pyIn "script" project_lower then pythonScriptTemplate
         else "")
      else if language_lower = "javascript" ∨ language_lower = "js" then
        (if pyIn "web" project_lower then reactTemplate
         else if pyIn "api" project_lower then expressTemplate
         else "")
      else "")

/-- Python truthiness of the `Optional[str]` snippet (`if code_snippet:`,
lines 415 and 443): present and non-empty. -/
def snippetTruthy : Option String → Bool
  | none => false
  | some s => !s.isEmpty

/-- `chr(10).join('• ' + x for x in l)` (used throughout `_run`). -/
def bulletJoin (l : List String) : String :=
  String.intercalate "\n" (l.map (fun s => "• " ++ s))

/-- `chr(10).join('• ' + x for x in l) if l else placeholder`. -/
def bulletJoinOr (l : List String) (placeholder : String) : String :=
  if l.isEmpty then placeholder else bulletJoin l

/-- The fixed line `_run` emits in place of the analysis when no snippet is
given (line 452). -/
def noSnippetLine : String := "\n• No code snippet provided for analysis\n"

/-- The report-header part of `_run`'s output (lines 434-441). -/
def reportHeader (requirements language project_type : String) : String :=
  "\n# Code Analysis Report for " ++ pyTitle language ++ " " ++ pyTitle project_type
  ++ "\n\n## Requirements\n" ++ requirements ++ "\n\n## Code Analysis\n"

/-- The Code Analysis part of `_run`'s output (lines 443-452): the snippet
analysis when a non-empty snippet is given, the fixed note otherwise. -/
def codeAnalysisSection (code_snippet : Option String) (language : String) : String :=
  if snippetTruthy code_snippet then
    let ca := _analyze_code_snippet (code_snippet.getD "") language
    "\n### Issues Found:\n"
    ++ bulletJoinOr ca.issues "• No major issues detected"
    ++ "\n\n### Improvement Suggestions:\n"
    ++ bulletJoinOr ca.improvements "• No specific improvements suggested"
    ++ "\n"
  else noSnippetLine

/-- The remaining sections of `_run`'s output (lines 454-481). -/
def recommendationSections (requirements language project_type : String) : String :=
  let libs := _get_recommended_libraries language project_type requirements
  "\n## Best Practices\n"
  ++ bulletJoin (_get_best_practices language project_type)
  ++ "\n\n## Architecture Suggestions\n"
  ++ bulletJoin (_get_architecture_suggestions project_type requirements)
  ++ "\n\n## Recommended Libraries & Frameworks\n### Frameworks:\n"
  ++ bulletJoinOr libs.frameworks "• No specific frameworks recommended"
  ++ "\n\n### Libraries:\n"
  ++ bulletJoinOr libs.libraries "• No specific libraries recommended"
  ++ "\n\n### Development Tools:\n"
  ++ bulletJoinOr libs.tools "• No specific tools recommended"
  ++ "\n\n## Security Considerations\n"
  ++ bulletJoin (_get_security_considerations language project_type)
  ++ "\n\n## Code Structure Template\n\n```"
  ++ pyLower language
  ++ "\n"
  ++ _generate_code_template language project_type requirements
  ++ "\n\n---\nThis analysis provides guidance for building a "
  ++ project_type ++ " in " ++ language
  ++ ". Implement these recommendations gradually and adapt them to your specific use case.\n"

/-- The `try:` body of `CodeAnalysisTool._run` (lines 408-483).  Every
statement in the body is a total string/list/dictionary operation, so the
body is embedded in the `Except` monad as a pure computation; a raised
exception would be an `Except.error` carrying `str(e)`. -/
def _run_body (code_snippet : Option String) (requirements language project_type : String) :
    Except String String :=
  Except.ok
    (reportHeader requirements language project_type
     ++ codeAnalysisSection code_snippet language
     ++ recommendationSections requirements language project_type)

/-- The `except Exception as e:` handler of `_run` (lines 485-486). -/
def handleAnalysisError : Except String String → String
  | Except.ok s => s
  | Except.error e => "Error during code analysis: " ++ e

/-- `CodeAnalysisTool._run` (lines 406-486). -/
def _run (code_snippet : Option String) (requirements language project_type : String) : String :=
  handleAnalysisError (_run_body code_snippet requirements language project_type)

/-- `containsTok` decides list infixhood. -/
theorem containsTok_correct {p l : List Char} : containsTok p l = true ↔ p <:+: l := by
  induction l with
  | nil =>
    simp [containsTok, List.isPrefixOf_iff_prefix]
  | cons c cs ih =>
    simp only [containsTok, Bool.or_eq_true, List.isPrefixOf_iff_prefix, ih]
    exact (List.infix_cons_iff).symm

/-- A substring of `b` is a substring of `a ++ b`. -/
theorem pyIn_append_right {pat b : String} (a : String) (h : pyIn pat b = true) :
    pyIn pat (a ++ b) = true := by
  unfold pyIn at h ⊢
  rw [String.data_append]
  rw [containsTok_correct] at h ⊢
  obtain ⟨s, t, hst⟩ := h
  exact ⟨a.data ++ s, t, by rw [← hst]; simp⟩

/-- A substring of `a` is a substring of `a ++ b`. -/
theorem pyIn_append_left {pat a : String} (b : String) (h : pyIn pat a = true) :
    pyIn pat (a ++ b) = true := by
  unfold pyIn at h ⊢
  rw [String.data_append]
  rw [containsTok_correct] at h ⊢
  obtain ⟨s, t, hst⟩ := h
  exact ⟨s, t ++ b.data, by rw [← hst]; simp⟩

end CodeAnalysisTool

open CodeAnalysisTool

/-- C9: for every input, the architecture-suggestion list begins with the
three generic suggestions, the security-consideration list begins with the
four generic entries, and so neither list is ever empty. -/
theorem generic_suggestions_always_present
    (language project_type requirements : String) :
    (_get_architecture_suggestions project_type requirements).take 3 = generalArch
    ∧ (_get_security_considerations language project_type).take 4 = generalSecurity
    ∧ _get_architecture_suggestions project_type requirements ≠ []
    ∧ _get_security_considerations language project_type ≠ [] := by
  refine ⟨rfl, rfl, fun h => ?_, fun h => ?_⟩
  · have h3 : (_get_architecture_suggestions project_type requirements).take 3
        = generalArch := rfl
    rw [h] at h3
    exact absurd h3 (by decide)
  · have h4 : (_get_security_considerations language project_type).take 4
        = generalSecurity := rfl
    rw [h] at h4
    exact absurd h4 (by decide)

/-- C1 (counterexample): the claim keys the web-specific architecture
suggestions on the requirements text, but the source keys them on the
project type: with requirements "web" and project type "cli" the first
web-specific suggestion is absent from the result. -/
theorem web_requirements_do_not_trigger_web_arch :
    ("Use MVC or MVP pattern" ∈ _get_architecture_suggestions "cli" "web") = False := by
  decide

/-- C1 (amended): for every project type containing "web" (case-insensitive)
and not containing "api", and every requirements string, the
architecture-suggestion list begins with the three generic suggestions
followed immediately by the four web-specific ones, in source order. -/
theorem web_project_type_arch_suggestions (project_type requirements : String)
    (hweb : pyIn "web" (pyLower project_type) = true)
    (hapi : pyIn "api" (pyLower project_type) = false) :
    (_get_architecture_suggestions project_type requirements).take 7
      = generalArch ++ webArch := by
  unfold _get_architecture_suggestions
  simp only [hweb, hapi, Bool.false_eq_true, if_false, if_true]
  rfl

/-- Witness for `web_project_type_arch_suggestions` at
project type "Web App", requirements "". -/
theorem web_project_type_arch_suggestions_witness :
    (_get_architecture_suggestions "Web App" "").take 7 = generalArch ++ webArch :=
  web_project_type_arch_suggestions "Web App" "" (by decide) (by decide)

/-- C2 (counterexample): the claim says an unsupported language alone makes
the best-practice list empty, but the project-type additions of
`_get_best_practices` do not depend on the language: with language "ruby"
and project type "web" the list has the four web entries. -/
theorem unsupported_language_best_practices_nonempty :
    _get_best_practices "ruby" "web" ≠ [] := by decide

/-- C2 (amended): for every language whose lower-casing is outside
{python, javascript, js, java}, `_get_recommended_libraries` returns the
all-empty mapping for every project type and requirements; and
`_get_best_practices` returns the empty list provided the lower-cased
project type contains neither "web" nor "api".  Both functions are total,
so neither call can raise. -/
theorem unsupported_language_empty_recommendations
    (language project_type requirements : String)
    (h1 : pyLower language ≠ "python")
    (h2 : pyLower language ≠ "javascript")
    (h3 : pyLower language ≠ "js")
    (h4 : pyLower language ≠ "java") :
    (pyIn "web" (pyLower project_type) = false →
     pyIn "api" (pyLower project_type) = false →
     _get_best_practices language project_type = [])
    ∧ _get_recommended_libraries language project_type requirements
        = { frameworks := [], libraries := [], tools := [] } := by
  constructor
  · intro hweb hapi
    unfold _get_best_practices
    simp [h1, h2, h3, h4, hweb, hapi]
  · unfold _get_recommended_libraries
    simp [h1, h2, h3, h4]

/-- Witness for `unsupported_language_empty_recommendations` at
language "Ruby": the best-practices part at project type "cli", the
libraries part at project type "web" (where the claim's unconditional
scope matters), requirements "test data". -/
theorem unsupported_language_empty_recommendations_witness :
    _get_best_practices "Ruby" "cli" = []
    ∧ _get_recommended_libraries "Ruby" "web" "test data"
        = { frameworks := [], libraries := [], tools := [] } :=
  ⟨(unsupported_language_empty_recommendations "Ruby" "cli" "test data"
      (by decide) (by decide) (by decide) (by decide)).1 (by decide) (by decide),
   (unsupported_language_empty_recommendations "Ruby" "web" "test data"
      (by decide) (by decide) (by decide) (by decide)).2⟩

/-- C4: whenever the snippet contains a case-insensitive occurrence of
"password", "secret" or "key", the issue list of `_analyze_code_snippet`
contains the hardcoded-credential warning exactly once, for every language
and however many occurrences there are. -/
theorem credential_warning_exactly_once (code language : String)
    (h : hasCredentialPattern code = true) :
    ((_analyze_code_snippet code language).issues).count
      "Potential hardcoded credentials detected - use environment variables or config files"
      = 1 := by
  unfold _analyze_code_snippet
  simp only [h, if_true]
  rw [List.count_append, List.count_append]
  have hlen :
      (List.count
        "Potential hardcoded credentials detected - use environment variables or config files"
        (if (pySplitNewline code).length > 100 then
          ["Code is quite long - consider breaking into smaller functions/methods"]
        else [])) = 0 := by
    rw [List.count_eq_zero]
    intro hmem
    split at hmem
    · simp at hmem
    · simp at hmem
  have hlang :
      (List.count
        "Potential hardcoded credentials detected - use environment variables or config files"
        (if pyLower language = "python" then
          (if pyIn "import *" code = true then
             ["Avoid wildcard imports - use specific imports instead"]
           else [])
          ++ (if bareExceptMatch code = true then
                ["Use specific exception handling instead of bare except clauses"]
              else [])
          ++ (if pyIn "global " code = true then
                ["Consider avoiding global variables - use function parameters or class attributes"]
              else [])
        else [])) = 0 := by
    rw [List.count_eq_zero]
    intro hmem
    split at hmem
    · rcases List.mem_append.1 hmem with hmem' | hmem'
      · rcases List.mem_append.1 hmem' with hmem'' | hmem''
        · split at hmem'' <;> simp_all
        · split at hmem'' <;> simp_all
      · split at hmem' <;> simp_all
    · simp at hmem
  rw [hlen, hlang]
  rfl

/-- Witness for `credential_warning_exactly_once` at the snippet "key"
and language "x". -/
theorem credential_warning_exactly_once_witness :
    ((_analyze_code_snippet "key" "x").issues).count
      "Potential hardcoded credentials detected - use environment variables or config files"
      = 1 :=
  credential_warning_exactly_once "key" "x" (by decide)

/-- C5: for language "Python" and project type "API" the generated template
is one fixed constant — the interpolated header line followed by the FastAPI
boilerplate — for every requirements value. -/
theorem python_api_template_constant (requirements : String) :
    _generate_code_template "Python" "API" requirements
      = "# Api Template for Python\n\n" ++ fastApiTemplate := rfl

/-- C6: whenever the (language, project type) pair matches none of the four
covered combinations — Python+API, Python+script, JavaScript+web,
JavaScript+API, matched by lower-cased substring — the generated template is
just the interpolated title header with an empty body. -/
theorem uncovered_combination_header_only (language project_type requirements : String)
    (hpy : ¬(pyLower language = "python"
        ∧ (pyIn "api" (pyLower project_type) = true
           ∨ pyIn "script" (pyLower project_type) = true)))
    (hjs : ¬((pyLower language = "javascript" ∨ pyLower language = "js")
        ∧ (pyIn "web" (pyLower project_type) = true
           ∨ pyIn "api" (pyLower project_type) = true))) :
    _generate_code_template language project_type requirements
      = "# " ++ pyTitle project_type ++ " Template for " ++ pyTitle language ++ "\n\n" := by
  unfold _generate_code_template
  by_cases h1 : pyLower language = "python"
  · have ha : pyIn "api" (pyLower project_type) = false := by
      cases hb : pyIn "api" (pyLower project_type)
      · rfl
      · exact absurd ⟨h1, Or.inl hb⟩ hpy
    have hs : pyIn "script" (pyLower project_type) = false := by
      cases hb : pyIn "script" (pyLower project_type)
      · rfl
      · exact absurd ⟨h1, Or.inr hb⟩ hpy
    simp [h1, ha, hs]
  · by_cases h2 : pyLower language = "javascript" ∨ pyLower language = "js"
    · have hw : pyIn "web" (pyLower project_type) = false := by
        cases hb : pyIn "web" (pyLower project_type)
        · rfl
        · exact absurd ⟨h2, Or.inl hb⟩ hjs
      have ha : pyIn "api" (pyLower project_type) = false := by
        cases hb : pyIn "api" (pyLower project_type)
        · rfl
        · exact absurd ⟨h2, Or.inr hb⟩ hjs
      simp [h1, h2, hw, ha]
    · simp [h1, h2]

/-- Witness for `uncovered_combination_header_only` at language "Ruby",
project type "Web". -/
theorem uncovered_combination_header_only_witness :
    _generate_code_template "Ruby" "Web" ""
      = "# " ++ pyTitle "Web" ++ " Template for " ++ pyTitle "Ruby" ++ "\n\n" :=
  uncovered_combination_header_only "Ruby" "Web" "" (by decide) (by decide)

/-- C7: on a snippet of at most 100 lines where none of the generic or
language-specific checks fires (including the negative checks: a `def`
regex match is present or the snippet is short, and a `public class`
declaration is present), `_analyze_code_snippet` returns empty issue and
improvement lists, for every language. -/
theorem no_pattern_match_empty_analysis (code language : String)
    (hlen : (pySplitNewline code).length ≤ 100)
    (hwild : pyIn "import *" code = false)
    (hexc : bareExceptMatch code = false)
    (hglob : pyIn "global " code = false)
    (horg : hasDefRegex code = true ∨ (pySplitNewline code).length ≤ 10)
    (hvar : pyIn "var " code = false)
    (heq : pyIn "==" code = false)
    (hfun : pyIn "function(" code = false ∨ pyIn "arrow" code = true)
    (hclass : hasPublicClass code = true)
    (hprint : pyIn "System.out.println" code = false ∨ pyIn "main" code = true)
    (hcred : hasCredentialPattern code = false)
    (hif : ifCondCount code ≤ 5) :
    _analyze_code_snippet code language = { issues := [], improvements := [] } := by
  unfold _analyze_code_snippet
  have hlen' : ¬((pySplitNewline code).length > 100) := by omega
  have hif' : ¬(ifCondCount code > 5) := by omega
  have horg' : (!hasDefRegex code && decide ((pySplitNewline code).length > 10)) = false := by
    rcases horg with h | h
    · simp [h]
    · have : decide ((pySplitNewline code).length > 10) = false := by
        rw [decide_eq_false_iff_not]; omega
      simp [this]
  have hfun' : (pyIn "function(" code && !pyIn "arrow" code) = false := by
    rcases hfun with h | h <;> simp [h]
  have hprint' : (pyIn "System.out.println" code && !pyIn "main" code) = false := by
    rcases hprint with h | h <;> simp [h]
  simp [hlen', hwild, hexc, hglob, horg', hvar, heq, hfun', hclass, hprint', hcred, hif']

/-- Witness for `no_pattern_match_empty_analysis` at the snippet
"public class Main" and language "java". -/
theorem no_pattern_match_empty_analysis_witness :
    _analyze_code_snippet "public class Main" "java"
      = { issues := [], improvements := [] } :=
  no_pattern_match_empty_analysis "public class Main" "java" (by decide) (by decide)
    (by decide) (by decide) (Or.inr (by decide)) (by decide) (by decide)
    (Or.inl (by decide)) (by decide) (Or.inl (by decide)) (by decide) (by decide)

/-- C8: the `try:` body of `_run` consists only of total string, list and
dictionary operations, so no exception ever arises and `_run` always
returns the assembled report string; by the `except` handler, any error
would surface as the plain error-message string with no partial report
content, never as a raised fault. -/
theorem run_total_no_exception
    (code_snippet : Option String) (requirements language project_type : String) :
    (∃ report,
        _run_body code_snippet requirements language project_type = Except.ok report
        ∧ _run code_snippet requirements language project_type = report)
    ∧ (∀ e, handleAnalysisError (Except.error e) = "Error during code analysis: " ++ e) :=
  ⟨⟨_, rfl, rfl⟩, fun _ => rfl⟩

/-- C10: an empty-string snippet is falsy in Python, so `_run` takes the
no-snippet branch: the report equals the one produced for `none` (in which
the snippet classifier is never invoked) and its Code Analysis section
carries the fixed no-snippet line. -/
theorem empty_snippet_no_analysis (requirements language project_type : String) :
    _run (some "") requirements language project_type
      = _run none requirements language project_type
    ∧ pyIn noSnippetLine (_run (some "") requirements language project_type) = true := by
  constructor
  · rfl
  · have hrun : _run (some "") requirements language project_type
        = (reportHeader requirements language project_type ++ noSnippetLine)
          ++ recommendationSections requirements language project_type := rfl
    rw [hrun]
    exact pyIn_append_left _
      (pyIn_append_right _ (by decide))

set_option maxRecDepth 40000 in
set_option maxHeartbeats 2000000 in
/-- C3 (counterexample): on the end-to-end input (no snippet, requirements
"Build a scalable API with database", language "Python", project type
"API") the claim asserts every scale-specific architecture bullet appears,
but "scalable" does not contain the keyword "scale" as a substring, so the
scale additions never fire: the first scale bullet is absent from the
report. -/
theorem scalable_requirements_missing_scale_bullet :
    pyIn "Consider microservices architecture"
      (_run none "Build a scalable API with database" "Python" "API") = false := by
  decide

set_option maxRecDepth 40000 in
set_option maxHeartbeats 8000000 in
/-- C3 (amended): on that same input the report contains every API-specific
and every database-specific architecture bullet and its Code Analysis
section carries the no-snippet line; the scale-specific bullets are all
absent, because "scalable" does not contain "scale". -/
theorem api_database_report_contents :
    ((apiArch ++ dbArch).all
        (fun s => pyIn s (_run none "Build a scalable API with database" "Python" "API")))
      = true
    ∧ pyIn noSnippetLine
        (_run none "Build a scalable API with database" "Python" "API") = true
    ∧ (scaleArch.any
        (fun s => pyIn s (_run none "Build a scalable API with database" "Python" "API")))
      = false :=
  ⟨by decide, by decide, by decide⟩
